import Mathlib

/-
Shallow embedding of `raycast.c` from makaylas/CS430Project3.

The file has two parts:
  * the intersection library (`plane_intersection`, `sphere_intersection`,
    raycast.c:585-632) — C `double` arithmetic is modelled over `ℝ`;
  * the scene-file reader (`read_scene` and the lexer helpers,
    raycast.c:44-583) — here every numeric value that the parser compares
    or stores is a decimal literal from the file, so `double` is modelled
    over `ℚ`, which keeps the whole parser computable.

The C program communicates outcomes through the process: every error path
calls `exit(1)` after printing a message, and the successful end of
parsing calls `exit(0)`.  The embedding turns each distinct
`fprintf`+`exit(1)` site into its own constructor of `Err`, and `exit(0)`
into `Outcome.exitSuccess`.  The C function `read_scene` is declared to
return `Object*`, but its body has no `return` statement that is ever
reached; the `Outcome.returns` constructor models that (never produced)
normal return.
-/

namespace Raycast

/-! ## Vectors and the intersection library (raycast.c:172-181, 585-632) -/

/-- A 3-component vector of doubles (`double v[3]`), modelled over `ℝ`. -/
structure Vec3 where
  x : ℝ
  y : ℝ
  z : ℝ

/-- raycast.c:172-174, `sqr(v) = v*v`. -/
def sqr (v : ℝ) : ℝ := v * v

/-- Componentwise difference, used for `b[i] = position[i] - origin[i]`
(raycast.c:591-593) and for the spec-side formulas. -/
def Vec3.sub (u v : Vec3) : Vec3 := ⟨u.x - v.x, u.y - v.y, u.z - v.z⟩

/-- Dot product of 3-vectors, written out exactly as the C source writes it. -/
def dot (u v : Vec3) : ℝ := u.x * v.x + u.y * v.y + u.z * v.z

/-- raycast.c:585-604, `plane_intersection`.  The C function returns `-1.0`
as the "no intersection" sentinel.  Note the division `t = d/a` is
unguarded in the source; over `ℝ` Lean's convention gives `d / 0 = 0`
(IEEE doubles would give `±inf` or NaN there). -/
noncomputable def plane_intersection (origin direction position normal : Vec3) : ℝ :=
  let a := normal.x * direction.x + normal.y * direction.y + normal.z * direction.z
  let b := Vec3.sub position origin
  let d := b.x * normal.x + b.y * normal.y + b.z * normal.z
  let t := d / a
  if t < 0 then -1 else t

/-- raycast.c:606-632, `sphere_intersection`.  Returns `-1.0` when there is
no positive root. -/
noncomputable def sphere_intersection (origin direction offset : Vec3) (radius : ℝ) : ℝ :=
  let a := sqr direction.x + sqr direction.y + sqr direction.z
  let b := 2 * (direction.x * (origin.x - offset.x) + direction.y * (origin.y - offset.y) +
            direction.z * (origin.z - offset.z))
  let c := sqr (origin.x - offset.x) + sqr (origin.y - offset.y) +
            sqr (origin.z - offset.z) - sqr radius
  let det := sqr b - 4 * a * c
  if det < 0 then -1
  else
    let sdet := Real.sqrt det
    let t0 := (-b - sdet) / (2 * a)
    if t0 > 0 then t0
    else
      let t1 := (-b + sdet) / (2 * a)
      if t1 > 0 then t1
      else -1

/-- The sphere-intersection procedure exactly as the specification words it:
`a = dot(direction,direction)`, `b = 2*dot(direction, origin-center)`,
`c = dot(origin-center, origin-center) - radius²`, `disc = b² - 4ac`;
no intersection when `disc < 0`, otherwise prefer `t0 = (-b-√disc)/2a`
when positive, fall back to `t1 = (-b+√disc)/2a` when positive, else no
intersection.  Written from the spec's words, to be compared with the
source-derived `sphere_intersection`. -/
noncomputable def sphereIntersectionSpec (origin direction center : Vec3) (radius : ℝ) : ℝ :=
  let a := dot direction direction
  let b := 2 * dot direction (Vec3.sub origin center)
  let c := dot (Vec3.sub origin center) (Vec3.sub origin center) - radius ^ 2
  let disc := b ^ 2 - 4 * a * c
  if disc < 0 then -1
  else
    let t0 := (-b - Real.sqrt disc) / (2 * a)
    if t0 > 0 then t0
    else
      let t1 := (-b + Real.sqrt disc) / (2 * a)
      if t1 > 0 then t1
      else -1

/-- The plane-intersection procedure exactly as the specification words it:
`a = dot(normal, direction)`, `d = dot(position - origin, normal)`,
`t = d/a`; return `t` when `t ≥ 0`, else no intersection. -/
noncomputable def planeIntersectionSpec (origin direction position normal : Vec3) : ℝ :=
  let a := dot normal direction
  let d := dot (Vec3.sub position origin) normal
  let t := d / a
  if t < 0 then -1 else t

/-! ## The scene-file reader (raycast.c:44-583)

The input file is modelled as a `List Char`; reading a character consumes
the head of the list, `ungetc` corresponds to leaving the character on the
list.  The global line counter only feeds the text of error messages and is
not modelled.  Two pieces of C state are indeterminate and are passed in as
parameters: `junk : ℚ` stands for the value `fscanf` leaves in an
uninitialized `double` on a matching failure (raycast.c:132-148) and for
every uninitialized `double` field of a freshly declared `Object`, and
`junkB : Bool` stands for the uninitialized `bool` presence flags the
source never sets before reading (`aPlane.plane.normalGiven` in the plane
and light branches, `cam.camera.widthGiven/heightGiven` before the first
camera object). -/

/-- One constructor per distinct `fprintf`+`exit(1)` site that the modelled
part of the program can reach, plus `fuelExhausted`, an artifact of the
fuel-based embedding of the C `while(1)` loops (it is only produced when
the fuel runs out, which cannot happen for the fuel `read_scene` supplies,
and corresponds to the C program looping forever re-reading EOF at
raycast.c:219). -/
inductive Err where
  | unexpectedEOF        -- raycast.c:59-62 (next_c) and 138-141 (next_number)
  | expectedChar         -- raycast.c:77-78 (expect_c)
  | expectedString       -- raycast.c:102-105 (next_string)
  | stringTooLong        -- raycast.c:111-114
  | escapeNotSupported   -- raycast.c:115-118
  | nonAsciiString       -- raycast.c:119-122
  | expectedTypeKey      -- raycast.c:231-234
  | unknownType          -- raycast.c:572-575
  | emptyScene           -- raycast.c:204-208
  | cameraWidthDup       -- raycast.c:262-265
  | cameraWidthInvalid   -- raycast.c:268-271
  | cameraHeightDup      -- raycast.c:279-282
  | cameraHeightInvalid  -- raycast.c:286-289
  | cameraUnknownProp    -- raycast.c:295-299
  | cameraMissingField   -- raycast.c:305-308
  | sphereColorDup       -- raycast.c:341-344
  | sphereColorInvalid   -- raycast.c:348-352
  | sphereRadiusDup      -- raycast.c:364-367
  | sphereRadiusInvalid  -- raycast.c:369-372
  | spherePositionDup    -- raycast.c:379-382
  | sphereMissingField   -- raycast.c:399-402
  | planeColorDup        -- raycast.c:431-434
  | planeColorInvalid    -- raycast.c:438-442
  | planeNormalDup       -- raycast.c:448-452 (reached only on the key "")
  | planePositionDup     -- raycast.c:463-466
  | planeMissingField    -- raycast.c:483-486
  | lightColorDup        -- raycast.c:515-518
  | lightColorInvalid    -- raycast.c:522-526
  | lightNormalDup       -- raycast.c:536-540
  | lightPositionDup     -- raycast.c:551-554
  | fuelExhausted
  deriving DecidableEq, Repr

/-- True exactly on the constructors that model a
"field has already been set" (duplicate field) error site. -/
def Err.isDupField : Err → Bool
  | .cameraWidthDup | .cameraHeightDup | .sphereColorDup | .sphereRadiusDup
  | .spherePositionDup | .planeColorDup | .planeNormalDup | .planePositionDup
  | .lightColorDup | .lightNormalDup | .lightPositionDup => true
  | _ => false

/-- C `isspace` over the characters that can occur in a scene file. -/
def isSpaceC (c : Char) : Bool :=
  c = ' ' || c = '\t' || c = '\n' || c = '\x0b' || c = '\x0c' || c = '\r'

/-- raycast.c:49-64, `next_c`: read one character, fatal on end of file. -/
def next_c : List Char → Except Err (Char × List Char)
  | [] => .error .unexpectedEOF
  | c :: rest => .ok (c, rest)

/-- raycast.c:70-79, `expect_c`: the next character must be `d`. -/
def expect_c (d : Char) (s : List Char) : Except Err (List Char) :=
  match next_c s with
  | .error e => .error e
  | .ok (c, rest) => if c = d then .ok rest else .error .expectedChar

/-- raycast.c:83-91, `skip_ws`: consume a maximal whitespace run and push
the following character back.  `next_c` inside it makes end of file during
(or at the start of) the run fatal. -/
def skip_ws : List Char → Except Err (List Char)
  | [] => .error .unexpectedEOF
  | c :: rest => if isSpaceC c then skip_ws rest else .ok (c :: rest)

/-- raycast.c:110-126, the character-collecting loop of `next_string`:
`i` is the number of characters already collected. -/
def readStringChars (i : Nat) : List Char → Except Err (List Char × List Char)
  | [] => .error .unexpectedEOF
  | c :: rest =>
    if c = '"' then .ok ([], rest)
    else if i ≥ 128 then .error .stringTooLong
    else if c = '\\' then .error .escapeNotSupported
    else if c.toNat < 32 || c.toNat > 126 then .error .nonAsciiString
    else
      match readStringChars (i + 1) rest with
      | .error e => .error e
      | .ok (cs, r) => .ok (c :: cs, r)

/-- raycast.c:97-130, `next_string`. -/
def next_string (s : List Char) : Except Err (String × List Char) :=
  match next_c s with
  | .error e => .error e
  | .ok (c, rest) =>
    if c = '"' then
      match readStringChars 0 rest with
      | .error e => .error e
      | .ok (cs, r) => .ok (String.mk cs, r)
    else .error .expectedString

/-- Longest leading run of decimal digits. -/
def takeDigits : List Char → List Char × List Char
  | [] => ([], [])
  | c :: rest =>
    if c.isDigit then
      let (ds, r) := takeDigits rest
      (c :: ds, r)
    else ([], c :: rest)

/-- Value of a digit string. -/
def digitsVal (ds : List Char) : Nat :=
  ds.foldl (fun a c => 10 * a + (c.toNat - 48)) 0

/-- Model of the conversion `fscanf(json, "%lf", ...)` attempts after its
own whitespace skipping: an optional sign followed by digits with an
optional fractional part (`d+`, `d+.d*`, or `.d+`).  Exponents and the
`inf`/`nan`/hex forms of `%lf` never occur in scene files and are not
modelled.  `none` is a matching failure: no characters are converted (as
an approximation, the stream is left at the first non-whitespace
character even when a lone sign was examined). -/
def parseNumberLit (s : List Char) : Option (ℚ × List Char) :=
  let signAndRest : Bool × List Char :=
    match s with
    | '-' :: r => (true, r)
    | '+' :: r => (false, r)
    | _ => (false, s)
  let neg := signAndRest.1
  let (ints, s2) := takeDigits signAndRest.2
  let unsigned : Option (ℚ × List Char) :=
    match s2 with
    | '.' :: r =>
      let (fracs, s3) := takeDigits r
      if ints.isEmpty && fracs.isEmpty then none
      else some (mkRat (digitsVal (ints ++ fracs)) (10 ^ fracs.length), s3)
    | _ =>
      if ints.isEmpty then none
      else some (mkRat (digitsVal ints) 1, s2)
  match unsigned with
  | none => none
  | some (v, rest) => some (if neg then -v else v, rest)

/-- raycast.c:132-148, `next_number`: `fscanf("%lf")` followed by checks of
`feof` and `ferror` only.  `feof` becomes true exactly when a read hit the
end of the stream: during `fscanf`'s whitespace skipping, on a matching
attempt at end of input, or when the converted literal runs to the very
end of the input (the scan reads one character past the digits to find
their end).  A matching failure with input remaining sets neither flag, so
the function returns the indeterminate value `junk` with no error — the
stream is left at the offending character. -/
def next_number (junk : ℚ) (s : List Char) : Except Err (ℚ × List Char) :=
  let s1 := s.dropWhile isSpaceC
  match s1 with
  | [] => .error .unexpectedEOF
  | _ :: _ =>
    match parseNumberLit s1 with
    | none => .ok (junk, s1)
    | some (v, rest) =>
      match rest with
      | [] => .error .unexpectedEOF
      | _ :: _ => .ok (v, rest)

/-- raycast.c:150-170, `next_vector`: the fixed sequence
`[ number , number , number ]`. -/
def next_vector (junk : ℚ) (s : List Char) : Except Err ((ℚ × ℚ × ℚ) × List Char) :=
  match expect_c '[' s with
  | .error e => .error e
  | .ok s => match skip_ws s with
  | .error e => .error e
  | .ok s => match next_number junk s with
  | .error e => .error e
  | .ok (v0, s) => match skip_ws s with
  | .error e => .error e
  | .ok s => match expect_c ',' s with
  | .error e => .error e
  | .ok s => match skip_ws s with
  | .error e => .error e
  | .ok s => match next_number junk s with
  | .error e => .error e
  | .ok (v1, s) => match skip_ws s with
  | .error e => .error e
  | .ok s => match expect_c ',' s with
  | .error e => .error e
  | .ok s => match skip_ws s with
  | .error e => .error e
  | .ok s => match next_number junk s with
  | .error e => .error e
  | .ok (v2, s) => match skip_ws s with
  | .error e => .error e
  | .ok s => match expect_c ']' s with
  | .error e => .error e
  | .ok s => .ok ((v0, v1, v2), s)

/-- Camera slot (`cam.camera`, raycast.c:14-19). -/
structure CamState where
  width : ℚ
  height : ℚ
  widthGiven : Bool
  heightGiven : Bool
  deriving DecidableEq, Repr

/-- Sphere object under construction (raycast.c:26-31 plus the shared
color/position fields). -/
structure SphereState where
  color : ℚ × ℚ × ℚ
  position : ℚ × ℚ × ℚ
  radius : ℚ
  colorGiven : Bool
  positionGiven : Bool
  radiusGiven : Bool
  deriving DecidableEq, Repr

/-- Plane object under construction (raycast.c:20-25 plus the shared
color/position fields); the light branch reuses the same layout
(raycast.c:492). -/
structure PlaneState where
  color : ℚ × ℚ × ℚ
  position : ℚ × ℚ × ℚ
  normal : ℚ × ℚ × ℚ
  colorGiven : Bool
  positionGiven : Bool
  normalGiven : Bool
  deriving DecidableEq, Repr

/-- An entry written into `objectArray[i]` (raycast.c:309, 403, 487; the
light branch stores nothing). -/
inductive Stored where
  | cameraObj (c : CamState)
  | sphereObj (s : SphereState)
  | planeObj (p : PlaneState)
  deriving DecidableEq, Repr

/-- All exits of `read_scene`: `exit(1)` after an error message,
`exit(0)` at the closing `]` (raycast.c:220-224), or the normal function
return promised by the `Object*` signature — which no path of the body
ever executes. -/
inductive Outcome where
  | exitSuccess
  | exitFailure (e : Err)
  | returns (scene : List (Nat × Stored))
  deriving DecidableEq, Repr

/-- raycast.c:247-303, the camera field loop.  The loop-level `else`
(raycast.c:295-300) makes any character other than `}` or `,` a fatal
"Unknown property" error; an unrecognized *key* inside the `,` branch is
silently ignored (the `if width / else if height` chain has no `else`),
which leaves the key's value in the stream so that its first character
then triggers the loop-level error. -/
def camLoop (junk : ℚ) : Nat → CamState → List Char → Except Err (CamState × List Char)
  | 0, _, _ => .error .fuelExhausted
  | fuel + 1, st, s =>
    match next_c s with
    | .error e => .error e
    | .ok (c, s) =>
      if c = '\x7d' then .ok (st, s)
      else if c = ',' then
        match skip_ws s with
        | .error e => .error e
        | .ok s => match next_string s with
        | .error e => .error e
        | .ok (key, s) => match skip_ws s with
        | .error e => .error e
        | .ok s => match expect_c ':' s with
        | .error e => .error e
        | .ok s => match skip_ws s with
        | .error e => .error e
        | .ok s =>
          let step : Except Err (CamState × List Char) :=
            if key = "width" then
              if st.widthGiven then .error .cameraWidthDup
              else match next_number junk s with
                | .error e => .error e
                | .ok (v, s) =>
                  if v < 1 then .error .cameraWidthInvalid
                  else .ok ({ st with widthGiven := true, width := v }, s)
            else if key = "height" then
              if st.heightGiven then .error .cameraHeightDup
              else match next_number junk s with
                | .error e => .error e
                | .ok (v, s) =>
                  if v < 1 then .error .cameraHeightInvalid
                  else .ok ({ st with heightGiven := true, height := v }, s)
            else .ok (st, s)
          match step with
          | .error e => .error e
          | .ok (st, s) =>
            match skip_ws s with
            | .error e => .error e
            | .ok s => camLoop junk fuel st s
      else .error .cameraUnknownProp

/-- raycast.c:322-398, the sphere field loop.  A loop-level character that
is neither `}` nor `,` is silently skipped (the `while` has no `else`),
and an unrecognized key only logs "Unknown property" without exiting
(raycast.c:391-395), leaving the key's value to be skipped character by
character. -/
def sphereLoop (junk : ℚ) : Nat → SphereState → List Char → Except Err (SphereState × List Char)
  | 0, _, _ => .error .fuelExhausted
  | fuel + 1, st, s =>
    match next_c s with
    | .error e => .error e
    | .ok (c, s) =>
      if c = '\x7d' then .ok (st, s)
      else if c = ',' then
        match skip_ws s with
        | .error e => .error e
        | .ok s => match next_string s with
        | .error e => .error e
        | .ok (key, s) => match skip_ws s with
        | .error e => .error e
        | .ok s => match expect_c ':' s with
        | .error e => .error e
        | .ok s => match skip_ws s with
        | .error e => .error e
        | .ok s =>
          let step : Except Err (SphereState × List Char) :=
            if key = "color" then
              if st.colorGiven then .error .sphereColorDup
              else match next_vector junk s with
                | .error e => .error e
                | .ok (v, s) =>
                  if v.1 < 0 ∨ v.1 > 255 ∨ v.2.1 < 0 ∨ v.2.1 > 255 ∨ v.2.2 < 0 ∨ v.2.2 > 255 then
                    .error .sphereColorInvalid
                  else .ok ({ st with colorGiven := true, color := v }, s)
            else if key = "radius" then
              if st.radiusGiven then .error .sphereRadiusDup
              else match next_number junk s with
                | .error e => .error e
                | .ok (v, s) =>
                  if v < 1 then .error .sphereRadiusInvalid
                  else .ok ({ st with radiusGiven := true, radius := v }, s)
            else if key = "position" then
              if st.positionGiven then .error .spherePositionDup
              else match next_vector junk s with
                | .error e => .error e
                | .ok (v, s) => .ok ({ st with positionGiven := true, position := v }, s)
            else .ok (st, s)  -- raycast.c:391-395: log only, no exit
          match step with
          | .error e => .error e
          | .ok (st, s) =>
            match skip_ws s with
            | .error e => .error e
            | .ok s => sphereLoop junk fuel st s
      else sphereLoop junk fuel st s  -- stray character silently consumed

/-- raycast.c:413-482, the plane field loop.  Three faithful oddities:
the color branch (raycast.c:430-444) range-checks the vector but never
sets `colorGiven` and never stores the color; the "normal" branch
compares the key against the empty string `""` (raycast.c:446), so an
actual `"normal"` key falls to the log-only unknown-property branch; a
loop-level character that is neither `}` nor `,` is silently skipped. -/
def planeLoop (junk : ℚ) : Nat → PlaneState → List Char → Except Err (PlaneState × List Char)
  | 0, _, _ => .error .fuelExhausted
  | fuel + 1, st, s =>
    match next_c s with
    | .error e => .error e
    | .ok (c, s) =>
      if c = '\x7d' then .ok (st, s)
      else if c = ',' then
        match skip_ws s with
        | .error e => .error e
        | .ok s => match next_string s with
        | .error e => .error e
        | .ok (key, s) => match skip_ws s with
        | .error e => .error e
        | .ok s => match expect_c ':' s with
        | .error e => .error e
        | .ok s => match skip_ws s with
        | .error e => .error e
        | .ok s =>
          let step : Except Err (PlaneState × List Char) :=
            if key = "color" then
              if st.colorGiven then .error .planeColorDup
              else match next_vector junk s with
                | .error e => .error e
                | .ok (v, s) =>
                  if v.1 < 0 ∨ v.1 > 255 ∨ v.2.1 < 0 ∨ v.2.1 > 255 ∨ v.2.2 < 0 ∨ v.2.2 > 255 then
                    .error .planeColorInvalid
                  else .ok (st, s)  -- flag and color NOT recorded (raycast.c:430-444)
            else if key = "" then  -- raycast.c:446: compares with "", not "normal"
              if st.normalGiven then .error .planeNormalDup
              else match next_vector junk s with
                | .error e => .error e
                | .ok (v, s) => .ok ({ st with normalGiven := true, normal := v }, s)
            else if key = "position" then
              if st.positionGiven then .error .planePositionDup
              else match next_vector junk s with
                | .error e => .error e
                | .ok (v, s) => .ok ({ st with positionGiven := true, position := v }, s)
            else .ok (st, s)  -- raycast.c:475-479: log only, no exit
          match step with
          | .error e => .error e
          | .ok (st, s) =>
            match skip_ws s with
            | .error e => .error e
            | .ok s => planeLoop junk fuel st s
      else planeLoop junk fuel st s  -- stray character silently consumed

/-- raycast.c:497-570, the light field loop (the source reuses the plane
layout).  Color is fully handled (dup check, range check, flag set),
"normal" and "position" are stored; an unrecognized key only logs
(raycast.c:563-567); a loop-level character that is neither `}` nor `,`
is silently skipped. -/
def lightLoop (junk : ℚ) : Nat → PlaneState → List Char → Except Err (PlaneState × List Char)
  | 0, _, _ => .error .fuelExhausted
  | fuel + 1, st, s =>
    match next_c s with
    | .error e => .error e
    | .ok (c, s) =>
      if c = '\x7d' then .ok (st, s)
      else if c = ',' then
        match skip_ws s with
        | .error e => .error e
        | .ok s => match next_string s with
        | .error e => .error e
        | .ok (key, s) => match skip_ws s with
        | .error e => .error e
        | .ok s => match expect_c ':' s with
        | .error e => .error e
        | .ok s => match skip_ws s with
        | .error e => .error e
        | .ok s =>
          let step : Except Err (PlaneState × List Char) :=
            if key = "color" then
              if st.colorGiven then .error .lightColorDup
              else match next_vector junk s with
                | .error e => .error e
                | .ok (v, s) =>
                  if v.1 < 0 ∨ v.1 > 255 ∨ v.2.1 < 0 ∨ v.2.1 > 255 ∨ v.2.2 < 0 ∨ v.2.2 > 255 then
                    .error .lightColorInvalid
                  else .ok ({ st with colorGiven := true, color := v }, s)
            else if key = "normal" then
              if st.normalGiven then .error .lightNormalDup
              else match next_vector junk s with
                | .error e => .error e
                | .ok (v, s) => .ok ({ st with normalGiven := true, normal := v }, s)
            else if key = "position" then
              if st.positionGiven then .error .lightPositionDup
              else match next_vector junk s with
                | .error e => .error e
                | .ok (v, s) => .ok ({ st with positionGiven := true, position := v }, s)
            else .ok (st, s)  -- raycast.c:563-567: log only, no exit
          match step with
          | .error e => .error e
          | .ok (st, s) =>
            match skip_ws s with
            | .error e => .error e
            | .ok s => lightLoop junk fuel st s
      else lightLoop junk fuel st s  -- stray character silently consumed

/-- raycast.c:218-582, the outer object loop.  `c = fgetc(json)` at
raycast.c:219 is a plain `fgetc`, so end of file is NOT fatal here: the C
program keeps re-reading EOF forever (modelled by burning fuel on an empty
stream).  A `]` is `exit(0)` — `fclose` and process termination, with the
object array discarded.  A `{` starts an object; any other character is
silently consumed.  `i = i + 1` (raycast.c:581) runs on every iteration,
including the silently-consumed-character ones. -/
def readLoop (junk : ℚ) (junkB : Bool) : Nat → CamState → List (Nat × Stored) → Nat → List Char → Outcome
  | 0, _, _, _, _ => .exitFailure .fuelExhausted
  | fuel + 1, cam, arr, i, s =>
    match s with
    | [] => readLoop junk junkB fuel cam arr (i + 1) []
    | c :: s =>
      if c = ']' then .exitSuccess  -- raycast.c:220-224: fclose; exit(0)
      else if c = '\x7b' then
        match skip_ws s with
        | .error e => .exitFailure e
        | .ok s => match next_string s with
        | .error e => .exitFailure e
        | .ok (key, s) =>
          if key ≠ "type" then .exitFailure .expectedTypeKey
          else match skip_ws s with
          | .error e => .exitFailure e
          | .ok s => match expect_c ':' s with
          | .error e => .exitFailure e
          | .ok s => match skip_ws s with
          | .error e => .exitFailure e
          | .ok s => match next_string s with
          | .error e => .exitFailure e
          | .ok (value, s) =>
            if value = "camera" then
              match camLoop junk fuel { cam with widthGiven := false, heightGiven := false } s with
              | .error e => .exitFailure e
              | .ok (cam, s) =>
                if !cam.heightGiven || !cam.widthGiven then .exitFailure .cameraMissingField
                else
                  match skip_ws s with  -- raycast.c:577
                  | .error e => .exitFailure e
                  | .ok s => readLoop junk junkB fuel cam ((i, .cameraObj cam) :: arr) (i + 1) s
            else if value = "sphere" then
              match sphereLoop junk fuel
                  { color := (junk, junk, junk), position := (junk, junk, junk),
                    radius := junk, colorGiven := false, positionGiven := false,
                    radiusGiven := false } s with
              | .error e => .exitFailure e
              | .ok (sph, s) =>
                if !sph.positionGiven || !sph.colorGiven || !sph.radiusGiven then
                  .exitFailure .sphereMissingField
                else
                  match skip_ws s with
                  | .error e => .exitFailure e
                  | .ok s => readLoop junk junkB fuel cam ((i, .sphereObj sph) :: arr) (i + 1) s
            else if value = "plane" then
              match planeLoop junk fuel
                  { color := (junk, junk, junk), position := (junk, junk, junk),
                    normal := (junk, junk, junk), colorGiven := false,
                    positionGiven := false, normalGiven := junkB } s with
              | .error e => .exitFailure e
              | .ok (pl, s) =>
                if !pl.positionGiven || !pl.colorGiven || !pl.normalGiven then
                  .exitFailure .planeMissingField
                else
                  match skip_ws s with
                  | .error e => .exitFailure e
                  | .ok s => readLoop junk junkB fuel cam ((i, .planeObj pl) :: arr) (i + 1) s
            else if value = "light" then
              match lightLoop junk fuel
                  { color := (junk, junk, junk), position := (junk, junk, junk),
                    normal := (junk, junk, junk), colorGiven := false,
                    positionGiven := false, normalGiven := junkB } s with
              | .error e => .exitFailure e
              | .ok (_, s) =>
                -- no required-field validation and no objectArray store for lights
                match skip_ws s with
                | .error e => .exitFailure e
                | .ok s => readLoop junk junkB fuel cam arr (i + 1) s
            else .exitFailure .unknownType
      else readLoop junk junkB fuel cam arr (i + 1) s

/-- raycast.c:185-583, `read_scene` (file opening aside: the model starts
from the file's character stream).  After `expect_c '['` and `skip_ws`,
the `fgetc` at raycast.c:203 consumes one character: `]` there is the
"worst scene file EVER" empty-scene error, and any other character —
including the `{` of the first object — is consumed and dropped before
the object loop starts.  `cam` starts with width = height = -1
(raycast.c:211-212) and uninitialized presence flags.  The fuel
`s.length + 1` dominates the iteration count of every loop, each of which
consumes at least one character per iteration from the suffix it is
given. -/
def read_scene (junk : ℚ) (junkB : Bool) (s : List Char) : Outcome :=
  match skip_ws s with  -- raycast.c:195
  | .error e => .exitFailure e
  | .ok s1 =>
    match expect_c '[' s1 with  -- raycast.c:198
    | .error e => .exitFailure e
    | .ok s2 =>
      match skip_ws s2 with  -- raycast.c:200
      | .error e => .exitFailure e
      | .ok s3 =>
        let cam0 : CamState := { width := -1, height := -1,
                                 widthGiven := junkB, heightGiven := junkB }
        match s3 with  -- raycast.c:203, plain fgetc
        | [] => readLoop junk junkB (s.length + 1) cam0 [] 0 []
        | c :: s4 =>
          if c = ']' then .exitFailure .emptyScene  -- raycast.c:204-208
          else readLoop junk junkB (s.length + 1) cam0 [] 0 s4

/-! ## Theorems for the claims -/

/-- Claim C1: for every ray and sphere, `sphere_intersection` computes
`a = dot(direction,direction)`, `b = 2*dot(direction, origin-center)`,
`c = dot(origin-center, origin-center) - radius²`, `disc = b² - 4ac`,
returns no intersection (`-1`) when `disc < 0`, and otherwise prefers
`t0 = (-b-√disc)/2a` when positive, falls back to `t1 = (-b+√disc)/2a`
when positive, else no intersection; in particular origin `(0,0,0)`,
direction `(0,0,-1)`, center `(0,0,-5)`, radius `1` gives `t = 4`, and
direction `(0,0,1)` gives no intersection. -/
theorem claim_C1_sphere_intersection :
    (∀ origin direction center radius,
        sphere_intersection origin direction center radius =
          sphereIntersectionSpec origin direction center radius) ∧
    sphere_intersection ⟨0, 0, 0⟩ ⟨0, 0, -1⟩ ⟨0, 0, -5⟩ 1 = 4 ∧
    sphere_intersection ⟨0, 0, 0⟩ ⟨0, 0, 1⟩ ⟨0, 0, -5⟩ 1 = -1 := by
  have h4 : Real.sqrt 4 = 2 := by
    rw [show (4 : ℝ) = 2 ^ 2 by norm_num]
    exact Real.sqrt_sq (by norm_num)
  refine ⟨fun origin direction center radius => ?_, ?_, ?_⟩
  · simp only [sphere_intersection, sphereIntersectionSpec, dot, sqr, Vec3.sub, pow_two]
  · simp only [sphere_intersection, sqr]
    norm_num [h4]
  · simp only [sphere_intersection, sqr]
    norm_num [h4]

/-- Claim C2: for every ray and plane with `dot(normal, direction) ≠ 0`,
`plane_intersection` computes `a = dot(normal, direction)`,
`d = dot(position-origin, normal)`, `t = d/a`, returning `t` when `t ≥ 0`
and no intersection (`-1`) when `t < 0`; in particular origin `(0,0,0)`,
direction `(0,0,-1)`, plane position `(0,0,-10)`, normal `(0,0,1)` gives
`t = 10`. -/
theorem claim_C2_plane_intersection :
    (∀ origin direction position normal,
        dot normal direction ≠ 0 →
        plane_intersection origin direction position normal =
          planeIntersectionSpec origin direction position normal) ∧
    plane_intersection ⟨0, 0, 0⟩ ⟨0, 0, -1⟩ ⟨0, 0, -10⟩ ⟨0, 0, 1⟩ = 10 := by
  refine ⟨fun origin direction position normal _ => ?_, ?_⟩
  · simp only [plane_intersection, planeIntersectionSpec, dot, Vec3.sub]
  · simp only [plane_intersection, Vec3.sub]
    norm_num

/-- Claim C2 witness: the hypothesis `dot(normal, direction) ≠ 0` holds at
the concrete ray/plane below, and the theorem applies there. -/
theorem claim_C2_witness :
    plane_intersection ⟨0, 0, 0⟩ ⟨1, 0, 0⟩ ⟨5, 0, 0⟩ ⟨1, 0, 0⟩ =
      planeIntersectionSpec ⟨0, 0, 0⟩ ⟨1, 0, 0⟩ ⟨5, 0, 0⟩ ⟨1, 0, 0⟩ :=
  claim_C2_plane_intersection.1 _ _ _ _ (by norm_num [dot])

/-- Claim C3 (refuting theorem): for a ray parallel to the plane
(direction `(1,0,0)` orthogonal to normal `(0,0,1)`, with
`d = dot(position-origin, normal) = 10`), `plane_intersection` performs
the unguarded division `10 / 0` and does NOT return the `-1`
"no intersection" sentinel — under Lean's real-division convention the
returned value is `10 / 0 = 0`, and under IEEE doubles the same unguarded
division yields `+inf`; either way the claim's "no intersection, never
NaN/infinity" fails on the code. -/
theorem claim_C3_parallel_ray_not_rejected :
    plane_intersection ⟨0, 0, 0⟩ ⟨1, 0, 0⟩ ⟨0, 0, 10⟩ ⟨0, 0, 1⟩ = (10 : ℝ) / 0 ∧
    plane_intersection ⟨0, 0, 0⟩ ⟨1, 0, 0⟩ ⟨0, 0, 10⟩ ⟨0, 0, 1⟩ ≠ -1 := by
  constructor
  · simp only [plane_intersection, Vec3.sub]
    norm_num
  · simp only [plane_intersection, Vec3.sub]
    norm_num

/-- Claim C4 (refuting theorem): on well-formed scene texts `read_scene`
reaches the closing `]` and performs `exit(0)` — it never executes a
normal return carrying a scene.  First conjunct: a one-camera scene ends
in `exit(0)`.  Second: no `Outcome.returns` value is produced for it.
Third: a one-sphere scene also ends in `exit(0)` — at the `]` that closes
the sphere's `position` vector, because the `fgetc` at raycast.c:203
already consumed the first object's `{`, so the first object is skipped
character by character and the first `]` seen at the top level terminates
the program. -/
theorem claim_C4_read_scene_never_returns :
    read_scene 0 false ("[\x7b\"type\":\"camera\",\"width\":4,\"height\":3\x7d]".toList) =
      .exitSuccess ∧
    (∀ scene, read_scene 0 false ("[\x7b\"type\":\"camera\",\"width\":4,\"height\":3\x7d]".toList) ≠
      .returns scene) ∧
    read_scene 0 false
      ("[\x7b\"type\":\"sphere\",\"position\":[1,2,3],\"color\":[0,0,0],\"radius\":1\x7d]".toList) =
      .exitSuccess := by
  refine ⟨by decide, ?_, by decide⟩
  intro scene h
  rw [show read_scene 0 false ("[\x7b\"type\":\"camera\",\"width\":4,\"height\":3\x7d]".toList) =
      Outcome.exitSuccess from by decide] at h
  exact Outcome.noConfusion h

/-- Claim C5 counterexample: a plane object carrying the key `"color"`
twice does not fail with a duplicate-field error — the plane color branch
never sets `colorGiven` (raycast.c:430-444), so the second `"color"` passes
the duplicate check and the parse instead fails with the plane's
missing-required-field error, which is not one of the duplicate-field exit
sites. -/
theorem claim_C5_counterexample :
    read_scene 0 false
      (("[\x7b\"type\":\"camera\",\"width\":1,\"height\":1\x7d," ++
        "\x7b\"type\":\"plane\",\"position\":[1,2,3],\"color\":[0,0,0],\"color\":[0,0,0]\x7d]").toList) =
      .exitFailure .planeMissingField ∧
    Err.isDupField .planeMissingField = false := by
  exact ⟨by decide, by decide⟩

/-- Claim C5 amended: for an object the parser actually dispatches on (not
the first array element, which is skipped — see C4), a duplicated key is a
fatal duplicate-field error for camera `width` and `height`, sphere
`color`, `radius` and `position`, plane `position`, and light `color` and
`position`; but a duplicated plane `color` goes undetected (the branch
never sets the presence flag, and the object later fails the
required-field check instead), and a plane `normal` key is never
recognized at all (the source compares keys against `""`), so a
duplicated plane `normal` ends in an "Expected string" syntax error while
its unconsumed vector value is being skipped, not in a duplicate-field
error. -/
theorem claim_C5_amended (j : ℚ) (b : Bool) :
    read_scene j b (("[\x7b\"type\":\"camera\",\"width\":1,\"height\":1\x7d," ++
      "\x7b\"type\":\"camera\",\"width\":1,\"width\":2\x7d]").toList) =
      .exitFailure .cameraWidthDup ∧
    read_scene j b (("[\x7b\"type\":\"camera\",\"width\":1,\"height\":1\x7d," ++
      "\x7b\"type\":\"camera\",\"width\":1,\"height\":1,\"height\":2\x7d]").toList) =
      .exitFailure .cameraHeightDup ∧
    read_scene j b (("[\x7b\"type\":\"camera\",\"width\":1,\"height\":1\x7d," ++
      "\x7b\"type\":\"sphere\",\"color\":[0,0,0],\"color\":[0,0,0]\x7d]").toList) =
      .exitFailure .sphereColorDup ∧
    read_scene j b (("[\x7b\"type\":\"camera\",\"width\":1,\"height\":1\x7d," ++
      "\x7b\"type\":\"sphere\",\"color\":[0,0,0],\"radius\":2,\"radius\":3\x7d]").toList) =
      .exitFailure .sphereRadiusDup ∧
    read_scene j b (("[\x7b\"type\":\"camera\",\"width\":1,\"height\":1\x7d," ++
      "\x7b\"type\":\"sphere\",\"position\":[1,2,3],\"position\":[1,2,3]\x7d]").toList) =
      .exitFailure .spherePositionDup ∧
    read_scene j b (("[\x7b\"type\":\"camera\",\"width\":1,\"height\":1\x7d," ++
      "\x7b\"type\":\"plane\",\"position\":[1,2,3],\"position\":[1,2,3]\x7d]").toList) =
      .exitFailure .planePositionDup ∧
    read_scene j b (("[\x7b\"type\":\"camera\",\"width\":1,\"height\":1\x7d," ++
      "\x7b\"type\":\"light\",\"color\":[0,0,0],\"color\":[0,0,0]\x7d]").toList) =
      .exitFailure .lightColorDup ∧
    read_scene j b (("[\x7b\"type\":\"camera\",\"width\":1,\"height\":1\x7d," ++
      "\x7b\"type\":\"light\",\"position\":[1,2,3],\"position\":[1,2,3]\x7d]").toList) =
      .exitFailure .lightPositionDup ∧
    read_scene j b (("[\x7b\"type\":\"camera\",\"width\":1,\"height\":1\x7d," ++
      "\x7b\"type\":\"plane\",\"position\":[1,2,3],\"color\":[0,0,0],\"color\":[0,0,0]\x7d]").toList) =
      .exitFailure .planeMissingField ∧
    read_scene j b (("[\x7b\"type\":\"camera\",\"width\":1,\"height\":1\x7d," ++
      "\x7b\"type\":\"plane\",\"normal\":[0,0,1],\"normal\":[0,0,1]\x7d]").toList) =
      .exitFailure .expectedString := by
  exact ⟨rfl, rfl, rfl, rfl, rfl, rfl, rfl, rfl, rfl, rfl⟩

/-- Claim C6 (refuting theorem): a plane supplying `position`, `color` and
`normal` exactly once each, with in-range values, is NOT accepted.  First
conjunct: with the `normal` field last, the parse aborts with an
"Expected string" syntax error — the `normal` key is unrecognized
(raycast.c:446 compares against `""`), its vector value is then skipped
character by character, and the comma inside `[0,0,1]` makes the field
loop look for a quoted key where a digit stands.  Second conjunct: a plane
with only `position` and `color` (no comma-bearing skipped value) reaches
the required-field check and fails it even though `color` was supplied,
because the color branch never sets `colorGiven`. -/
theorem claim_C6_plane_always_rejected (j : ℚ) (b : Bool) :
    read_scene j b (("[\x7b\"type\":\"camera\",\"width\":1,\"height\":1\x7d," ++
      "\x7b\"type\":\"plane\",\"position\":[1,2,3],\"color\":[0,0,0],\"normal\":[0,0,1]\x7d]").toList) =
      .exitFailure .expectedString ∧
    read_scene j b (("[\x7b\"type\":\"camera\",\"width\":1,\"height\":1\x7d," ++
      "\x7b\"type\":\"plane\",\"position\":[1,2,3],\"color\":[0,0,0]\x7d]").toList) =
      .exitFailure .planeMissingField := by
  exact ⟨rfl, rfl⟩

/-- Claim C7 counterexample: a sphere with the unrecognized key `"foo"`
does not fail — the sphere unknown-property branch (raycast.c:391-395)
prints but does not exit, the key's value is skipped character by
character, parsing continues through the remaining fields, and the whole
scene ends in `exit(0)`. -/
theorem claim_C7_counterexample :
    read_scene 0 false
      (("[\x7b\"type\":\"camera\",\"width\":1,\"height\":1\x7d," ++
        "\x7b\"type\":\"sphere\",\"foo\":7,\"color\":[0,0,0],\"position\":[1,2,3],\"radius\":1\x7d]").toList) =
      .exitSuccess := by
  decide

/-- Claim C7 amended: only the camera branch is fatal on an unrecognized
field: its field loop has a loop-level `else` (raycast.c:295-300) that
exits with "Unknown property" when it meets the first character of the
skipped key's value; the sphere, plane and light branches log the unknown
key and keep parsing (the plane case appears in the C6 theorem). -/
theorem claim_C7_amended (j : ℚ) (b : Bool) :
    read_scene j b (("[\x7b\"type\":\"camera\",\"width\":1,\"height\":1\x7d," ++
      "\x7b\"type\":\"camera\",\"foo\":7,\"width\":1,\"height\":1\x7d]").toList) =
      .exitFailure .cameraUnknownProp ∧
    read_scene j b (("[\x7b\"type\":\"camera\",\"width\":1,\"height\":1\x7d," ++
      "\x7b\"type\":\"sphere\",\"foo\":7,\"color\":[0,0,0],\"position\":[1,2,3],\"radius\":1\x7d]").toList) =
      .exitSuccess ∧
    read_scene j b (("[\x7b\"type\":\"camera\",\"width\":1,\"height\":1\x7d," ++
      "\x7b\"type\":\"light\",\"foo\":7,\"color\":[0,0,0]\x7d]").toList) =
      .exitSuccess := by
  exact ⟨rfl, rfl, rfl⟩

/-- Claim C8 counterexample: an out-of-range color channel does NOT always
make the parse fail with the out-of-range error.  When the colored object
is the first array element, the `fgetc` at raycast.c:203 has already
consumed its `{`, so the object — color `[256,0,0]` included — is skipped
character by character, and the `]` closing that very color vector is
taken for the end of the array: the program exits with status 0 and the
out-of-range channel is never examined. -/
theorem claim_C8_counterexample :
    read_scene 0 false
      ("[\x7b\"type\":\"sphere\",\"color\":[256,0,0],\"position\":[1,2,3],\"radius\":1\x7d]".toList) =
      .exitSuccess := by
  decide

/-- Claim C8 amended: for a color field of an object the parser actually
dispatches on (not the first array element, which is skipped — see C4),
every color range check (sphere raycast.c:348-352, plane
raycast.c:438-442, light raycast.c:522-526) rejects a channel of `256`
and of `-1` with the color-invalid error, and the boundary values `0` and
`255` pass the range check (bounds inclusive).  For the plane, passing
the range check is all acceptance can mean: every plane object is later
rejected by the independently broken required-field check (see C6), not
by the range check. -/
theorem claim_C8_color_range (j : ℚ) (b : Bool) :
    read_scene j b (("[\x7b\"type\":\"camera\",\"width\":1,\"height\":1\x7d," ++
      "\x7b\"type\":\"sphere\",\"color\":[256,0,0],\"position\":[1,2,3],\"radius\":1\x7d]").toList) =
      .exitFailure .sphereColorInvalid ∧
    read_scene j b (("[\x7b\"type\":\"camera\",\"width\":1,\"height\":1\x7d," ++
      "\x7b\"type\":\"sphere\",\"color\":[-1,0,0],\"position\":[1,2,3],\"radius\":1\x7d]").toList) =
      .exitFailure .sphereColorInvalid ∧
    read_scene j b (("[\x7b\"type\":\"camera\",\"width\":1,\"height\":1\x7d," ++
      "\x7b\"type\":\"sphere\",\"color\":[0,255,0],\"position\":[1,2,3],\"radius\":1\x7d]").toList) =
      .exitSuccess ∧
    read_scene j b (("[\x7b\"type\":\"camera\",\"width\":1,\"height\":1\x7d," ++
      "\x7b\"type\":\"plane\",\"color\":[256,0,0],\"position\":[1,2,3]\x7d]").toList) =
      .exitFailure .planeColorInvalid ∧
    read_scene j b (("[\x7b\"type\":\"camera\",\"width\":1,\"height\":1\x7d," ++
      "\x7b\"type\":\"plane\",\"color\":[0,255,0],\"position\":[1,2,3]\x7d]").toList) =
      .exitFailure .planeMissingField ∧
    read_scene j b (("[\x7b\"type\":\"camera\",\"width\":1,\"height\":1\x7d," ++
      "\x7b\"type\":\"light\",\"color\":[256,0,0]\x7d]").toList) =
      .exitFailure .lightColorInvalid ∧
    read_scene j b (("[\x7b\"type\":\"camera\",\"width\":1,\"height\":1\x7d," ++
      "\x7b\"type\":\"light\",\"color\":[0,255,0]\x7d]").toList) =
      .exitSuccess := by
  exact ⟨rfl, rfl, rfl, rfl, rfl, rfl, rfl⟩

/-- Claim C9: when the first non-whitespace character after `[` is `]`,
`read_scene` fails with the empty-scene error (raycast.c:203-208) and no
scene is produced; this holds for the two-character input `[]`, for
whitespace between the brackets, and regardless of anything that follows
the `]`. -/
theorem claim_C9_empty_scene (j : ℚ) (b : Bool) :
    read_scene j b ("[]".toList) = .exitFailure .emptyScene ∧
    read_scene j b ("[ \n]".toList) = .exitFailure .emptyScene ∧
    (∀ rest, read_scene j b ('[' :: ']' :: rest) = .exitFailure .emptyScene) := by
  exact ⟨rfl, rfl, fun rest => rfl⟩

/-- Claim C10: `next_number` signals an error only when the scan ran into
the end of the stream (the model has no I/O-error state, so `ferror` never
fires): every error it can return is the end-of-file error.  And on a
matching failure with input remaining — the first non-whitespace
characters do not form a numeric literal — it reports no error and
returns the caller-invisible indeterminate value `junk`, for every
`junk`, with the stream left at the offending character: a malformed
numeric field value is silently accepted. -/
theorem claim_C10_next_number :
    (∀ (junk : ℚ) (s s1 : List Char), s.dropWhile isSpaceC = s1 → s1 ≠ [] →
        parseNumberLit s1 = none → next_number junk s = .ok (junk, s1)) ∧
    (∀ (junk : ℚ) (s : List Char) (e : Err),
        next_number junk s = .error e → e = .unexpectedEOF) := by
  constructor
  · intro junk s s1 h1 h2 h3
    unfold next_number
    rw [h1]
    cases s1 with
    | nil => exact absurd rfl h2
    | cons c t => simp [h3]
  · intro junk s e h
    unfold next_number at h
    cases hd : s.dropWhile isSpaceC with
    | nil =>
      rw [hd] at h
      simpa using h.symm
    | cons c t =>
      rw [hd] at h
      dsimp only at h
      cases hp : parseNumberLit (c :: t) with
      | none =>
        rw [hp] at h
        exact absurd h (by simp)
      | some p =>
        rw [hp] at h
        obtain ⟨v, rest⟩ := p
        cases rest with
        | nil => simpa using h.symm
        | cons d u => exact absurd h (by simp)

/-- Claim C10 witness: at the concrete input `" x"` the hypotheses hold
(`dropWhile` leaves `"x"`, which is nonempty and not a numeric literal)
and `next_number` returns `junk = 7` with no error. -/
theorem claim_C10_witness :
    (' ' :: 'x' :: []).dropWhile isSpaceC = ('x' :: []) ∧
    ('x' :: []) ≠ ([] : List Char) ∧
    parseNumberLit ('x' :: []) = none ∧
    next_number 7 (' ' :: 'x' :: []) = .ok (7, 'x' :: []) :=
  ⟨by decide, by decide, by decide,
    claim_C10_next_number.1 7 (' ' :: 'x' :: []) ('x' :: []) (by decide) (by decide) (by decide)⟩

end Raycast
